import Mathlib

/-!
Verification of the OpenHands frontend credential-lifecycle subsystem:
the Bitbucket axios instance and its interceptor pipeline
(`frontend/src/api/bitbucket-axios-instance.ts`) and the auth context
(`AuthProvider`: token setters/clearers, `logout`, `refreshToken`).

JavaScript runtime values and state are embedded shallowly:
- parsed response bodies are `JsValue`;
- `string | null` fields (React state, localStorage entries, axios default
  headers) are `Option String`, with JS truthiness made explicit;
- the `OpenHands.getConfig` / `OpenHands.refreshToken` endpoints and the
  server's response to each dispatched request are environment parameters;
- a thrown JS error / rejected promise is `Except` error.
-/

/-- A JavaScript value, as far as parsed JSON response bodies need:
`null`, `undefined`, booleans, numbers (integer model), strings, arrays
and string-keyed objects. -/
inductive JsValue where
  | null
  | undefined
  | bool (b : Bool)
  | num (n : Int)
  | str (s : String)
  | arr (elems : List JsValue)
  | obj (fields : List (String × JsValue))

/-- JS truthiness (`!!x`) of a `JsValue`. Objects and arrays are always
truthy; `null`, `undefined`, `false`, `0` and `""` are falsy. -/
def JsValue.truthy : JsValue → Bool
  | .null => false
  | .undefined => false
  | .bool b => b
  | .num n => n != 0
  | .str s => s != ""
  | .arr _ => true
  | .obj _ => true

/-- The JS `"message" in data` test on an object or array. A JSON array
carries no string-keyed `message` property; an object has it iff one of
its fields is named `"message"`. (On truthy primitives the `in` operator
throws instead; see `inOperatorThrows`.) -/
def JsValue.hasMessageProp : JsValue → Bool
  | .obj fields => fields.any (fun f => f.1 == "message")
  | _ => false

/-- The JS property read `data.message` on an object (first binding;
`undefined` when absent or when `data` is not an object). -/
def JsValue.messageVal : JsValue → JsValue
  | .obj fields =>
    match fields.find? (fun f => f.1 == "message") with
    | some f => f.2
    | none => .undefined
  | _ => .undefined

/-- Whether a `JsValue` is the JS `undefined`. -/
def JsValue.isUndefined : JsValue → Bool
  | .undefined => true
  | _ => false

/-- `!!data && "message" in data` throws a TypeError exactly when `data`
is a truthy primitive (the short-circuit spares falsy values, and the
`in` operator is defined on objects and arrays). -/
def inOperatorThrows : JsValue → Bool
  | .bool b => b
  | .num n => n != 0
  | .str s => s != ""
  | _ => false

/-- `isBitbucketErrorResponse` from `bitbucket-axios-instance.ts`:
`!!data && "message" in data && data.message !== undefined`.
This is the value the expression computes when it does not throw
(i.e. when `inOperatorThrows data = false`). -/
def isBitbucketErrorResponse (data : JsValue) : Bool :=
  data.truthy && data.hasMessageProp && !data.messageVal.isUndefined

/-- Written from the spec's words, for comparison with the source's
`isBitbucketErrorResponse`: "a non-null object or array that structurally
contains a `message` property with a defined value". -/
def specErrorShape : JsValue → Bool
  | .obj fields =>
    match fields.find? (fun f => f.1 == "message") with
    | some f => !f.2.isUndefined
    | none => false
  | _ => false

/-- JS truthiness of a `string | null | undefined` variable. -/
def optTruthy : Option String → Bool
  | none => false
  | some s => s != ""

/-- An axios request config object, as far as the pipeline reads it: the
`_retry` marker the failure stage mutates, and the resolved
`Authorization` header the dispatch bakes onto the config. -/
structure Request where
  retryMarker : Bool
  auth : Option String
deriving Repr, DecidableEq

/-- An `AxiosError`, as far as `canRefresh` and the failure stage read
it: `error.config` (the request) and `error.response.status`
(`none` models a missing response object; `some 0` a response whose
status is falsy). -/
structure AxiosErr where
  config : Option Request
  respStatus : Option Nat
deriving Repr, DecidableEq

/-- A rejection value flowing through the pipeline: either an
`AxiosError` or some other JS error (a plain `Error` or `TypeError`),
identified by its message. -/
inductive FailureValue where
  | axios (e : AxiosErr)
  | jsError (msg : String)
deriving Repr, DecidableEq

/-- `canRefresh` from `bitbucket-axios-instance.ts`:
`error instanceof AxiosError && !!(error.config && error.response && error.response.status)`. -/
def canRefresh : FailureValue → Bool
  | .axios e =>
    e.config.isSome &&
      (match e.respStatus with
       | some s => s != 0
       | none => false)
  | .jsError _ => false

/-- The mutable session state of the `AuthProvider` together with the
axios clients' default `Authorization` headers, localStorage, and the
analytics (posthog) identity. -/
structure AuthState where
  gitHubToken : Option String
  bitbucketToken : Option String
  userId : String
  lsGhToken : Option String
  lsBitbucketToken : Option String
  lsUserId : Option String
  openHandsAuthHeader : Option String
  githubAuthHeader : Option String
  bitbucketAuthHeader : Option String
  analyticsId : Option String
deriving Repr, DecidableEq

/-- `setAuthTokenHeader` of the bitbucket client:
`bitbucket.defaults.headers.common.Authorization = \x7bBearer token\x7d`. -/
def setAuthTokenHeader (token : String) : Option String :=
  some ("Bearer " ++ token)

/-- `removeAuthTokenHeader` of the bitbucket client: deletes the default
`Authorization` header only when it is truthy
(`if (bitbucket.defaults.headers.common.Authorization) delete ...`). -/
def removeAuthTokenHeader (h : Option String) : Option String :=
  if optTruthy h then none else h

/-- Modelled from the spec: `github-axios-instance.ts` and
`open-hands-axios.ts` are not among the provided sources; per the header
manager contract, `setAuthHeader(token)` installs a bearer-scheme
`Authorization` default header. -/
def setGitHubAuthHeaderSpec (token : String) : Option String :=
  some ("Bearer " ++ token)

/-- Modelled from the spec: `removeAuthHeader()` of the GitHub-side
clients "deletes the header if present (no-op otherwise)", so the header
is absent afterwards. -/
def removeGitHubAuthHeaderSpec : Option String :=
  none

/-- `clearGitHubToken` from the `AuthProvider`: null state, remove the
localStorage entry, remove the open-hands and github default headers. -/
def clearGitHubToken (s : AuthState) : AuthState :=
  { s with
    gitHubToken := none
    lsGhToken := none
    openHandsAuthHeader := removeGitHubAuthHeaderSpec
    githubAuthHeader := removeGitHubAuthHeaderSpec }

/-- `clearBitbucketToken` from the `AuthProvider`: null state, remove the
localStorage entry, remove the bitbucket default header. -/
def clearBitbucketToken (s : AuthState) : AuthState :=
  { s with
    bitbucketToken := none
    lsBitbucketToken := none
    bitbucketAuthHeader := removeAuthTokenHeader s.bitbucketAuthHeader }

/-- `setGitHubToken` from the `AuthProvider`: store the state first, then
for a truthy token persist it and set both GitHub-side headers, else fall
back to `clearGitHubToken` (so `null` and `""` both clear). -/
def setGitHubToken (token : Option String) (s : AuthState) : AuthState :=
  let s1 : AuthState := { s with gitHubToken := token }
  if optTruthy token then
    { s1 with
      lsGhToken := token
      openHandsAuthHeader := setGitHubAuthHeaderSpec (token.getD "")
      githubAuthHeader := setGitHubAuthHeaderSpec (token.getD "") }
  else clearGitHubToken s1

/-- `setBitbucketToken` from the `AuthProvider`: store the state first,
then for a truthy token persist it and set the bitbucket header, else
fall back to `clearBitbucketToken`. -/
def setBitbucketToken (token : Option String) (s : AuthState) : AuthState :=
  let s1 : AuthState := { s with bitbucketToken := token }
  if optTruthy token then
    { s1 with
      lsBitbucketToken := token
      bitbucketAuthHeader := setAuthTokenHeader (token.getD "") }
  else clearBitbucketToken s1

/-- `setUserId` from the `AuthProvider`. The source reads
`setUserIdState(userIdState)` — it re-installs the old in-memory value —
while persisting the new one to localStorage; kept verbatim. -/
def setUserId (userId : String) (s : AuthState) : AuthState :=
  { s with userId := s.userId, lsUserId := some userId }

/-- `logout` from the `AuthProvider`: `clearGitHubToken();
clearBitbucketToken(); setUserIdState(""); localStorage.removeItem("userId");
posthog.reset();`. -/
def logout (s : AuthState) : AuthState :=
  let s1 := clearGitHubToken s
  let s2 := clearBitbucketToken s1
  { s2 with userId := "", lsUserId := none, analyticsId := none }

/-- The bitbucket client's header mirrors its credential. -/
def bbMirror (s : AuthState) : Prop :=
  s.bitbucketAuthHeader = s.bitbucketToken.map (fun t => "Bearer " ++ t)

/-- The GitHub-side clients' headers mirror the GitHub credential. -/
def ghMirror (s : AuthState) : Prop :=
  s.githubAuthHeader = s.gitHubToken.map (fun t => "Bearer " ++ t) ∧
    s.openHandsAuthHeader = s.gitHubToken.map (fun t => "Bearer " ++ t)

/-- The outcome of one `OpenHands.getConfig` and one
`OpenHands.refreshToken` call, as the environment of the coordinator:
`.error` models a rejected promise (thrown error). Modelled from the
spec: the token exchange endpoint (`api/open-hands.ts` is not among the
provided sources) "accepts an OAuth authorization `code`, returns
`\x7b access_token \x7d`", so a completed exchange yields the new token
or a null/empty value on failure. -/
structure RefreshEnv where
  config : Except String String
  exchange : Except String (Option String)
deriving Repr

/-- What one `refreshToken()` invocation produced: its returned boolean
(or thrown error), the session state afterwards, and whether the token
exchange endpoint was actually called. -/
structure RefreshResult where
  result : Except String Bool
  state : AuthState
  exchangeCalled : Bool
deriving Repr

/-- `refreshToken` from the `AuthProvider`:
fetch the config; if `config.APP_MODE !== "saas" || !gitHubTokenState`
return `false` with no exchange call and no mutation; otherwise perform
the exchange, install a truthy new token via `setGitHubToken` and return
`true`, or `clearGitHubToken` and return `false` on a falsy result. -/
def refreshTokenRun (env : RefreshEnv) (s : AuthState) : RefreshResult :=
  match env.config with
  | .error m => ⟨.error m, s, false⟩
  | .ok mode =>
    if mode ≠ "saas" ∨ optTruthy s.gitHubToken = false then
      ⟨.ok false, s, false⟩
    else
      match env.exchange with
      | .error m => ⟨.error m, s, true⟩
      | .ok newToken =>
        if optTruthy newToken then ⟨.ok true, setGitHubToken newToken s, true⟩
        else ⟨.ok false, clearGitHubToken s, true⟩

/-- The server's reaction to one dispatch of a request through the
bitbucket client: a 2xx response with a parsed body, an HTTP error
response with a status, or a transport failure with no response. -/
inductive ServerOutcome where
  | http2xx (status : Nat) (body : JsValue)
  | httpErr (status : Nat)
  | transport

/-- What the caller of the client observes: a resolved response body or
a rejection. -/
inductive ReqResult where
  | resolved (body : JsValue)
  | rejected (e : FailureValue)

/-- Instrumented state of one request run: the session state, how often
`refreshToken` / `logout` were invoked, and the requests dispatched (in
order). -/
structure RunState where
  auth : AuthState
  refreshCalls : Nat
  logoutCalls : Nat
  dispatched : List Request

/-- Invoke the `logout` callback once. -/
def doLogout (rs : RunState) : RunState :=
  { rs with auth := logout rs.auth, logoutCalls := rs.logoutCalls + 1 }

/-- The response success stage of `setupAxiosInterceptors`: evaluate
`isBitbucketErrorResponse(response.data)` — which throws a TypeError on
a truthy primitive body — and on a match throw
`new AxiosError("Failed", "", response.config, response.request, response)`;
otherwise return the response. A throw here rejects the caller's
promise directly (the paired failure handler of the same interceptor
does not see it). -/
def successStage (req : Request) (st : Nat) (body : JsValue) :
    Except FailureValue JsValue :=
  if inOperatorThrows body then .error (.jsError "TypeError")
  else if isBitbucketErrorResponse body then
    .error (.axios { config := some req, respStatus := some st })
  else .ok body

/-- Axios resolves the request's `Authorization` header at dispatch: an
explicit header already on the config wins, otherwise the client's
current default is merged in; the resolved headers are baked onto the
config object (so a later resubmission of the same config reuses them). -/
def resolveReq (req : Request) (rs : RunState) : Request :=
  { req with auth := req.auth.orElse (fun _ => rs.auth.bitbucketAuthHeader) }

/-- Record one dispatch of a (resolved) request. -/
def recordDispatch (req : Request) (rs : RunState) : RunState :=
  { rs with dispatched := rs.dispatched ++ [req] }

/-- The `originalRequest._retry = true` mutation. -/
def markReq (req : Request) : Request :=
  { req with retryMarker := true }

/-- The run state right after `await refreshToken()` resumes: the call
is counted and the session state is whatever the coordinator left. -/
def afterRefresh (renv : RefreshEnv) (rs : RunState) : RunState :=
  { rs with
    refreshCalls := rs.refreshCalls + 1
    auth := (refreshTokenRun renv rs.auth).state }

/-- The response failure stage of `setupAxiosInterceptors`,
parameterized by the resubmission function `retryFn`
(`bitbucket(originalRequest)`): reject a generic error unless
`canRefresh`; on a first 401 set `_retry` and, in saas mode, await
`refreshToken()` inside a try/catch whose catch does
`logout(); Promise.reject(refreshError)`. A `refreshed === false`
result runs `logout()` and then `return await Promise.reject(...)`,
whose rejection is itself caught, running `logout()` a second time.
After a successful refresh the marked request is resubmitted; a
rejection of that resubmission is also caught (logout, re-reject).
Outside those paths the original error is rejected unchanged. -/
def handleFailureWith (appMode : String) (renv : RefreshEnv)
    (retryFn : Request → RunState → ReqResult × RunState)
    (e : FailureValue) (rs : RunState) : ReqResult × RunState :=
  if canRefresh e then
    match e with
    | .axios a =>
      match a.config, a.respStatus with
      | some req, some st =>
        if st = 401 ∧ req.retryMarker = false then
          let req2 : Request := { req with retryMarker := true }
          if appMode = "saas" then
            match (refreshTokenRun renv rs.auth).result with
            | .error m =>
              (.rejected (.jsError m), doLogout (afterRefresh renv rs))
            | .ok false =>
              (.rejected (.jsError "Failed to refresh token"),
                doLogout (doLogout (afterRefresh renv rs)))
            | .ok true =>
              match retryFn req2 (afterRefresh renv rs) with
              | (.resolved b, rs3) => (.resolved b, rs3)
              | (.rejected re, rs3) => (.rejected re, doLogout rs3)
          else
            (.rejected (.axios { config := some req2, respStatus := some st }), rs)
        else (.rejected e, rs)
      | _, _ => (.rejected e, rs)
    | .jsError _ => (.rejected e, rs)
  else (.rejected (.jsError "Failed to refresh token"), rs)

/-- One dispatch of a request through the bitbucket client: axios
resolves the request's `Authorization` header against the client's
current defaults (an explicit header on the config wins) and bakes it
onto the config, then the server outcome flows through the success
stage (whose throw rejects the caller directly) or the failure stage. -/
def submitStep (appMode : String) (renv : RefreshEnv)
    (env : Nat → ServerOutcome)
    (retryFn : Request → RunState → ReqResult × RunState)
    (req : Request) (rs : RunState) : ReqResult × RunState :=
  let req2 : Request := resolveReq req rs
  let rs2 : RunState := recordDispatch req2 rs
  match env rs.dispatched.length with
  | .http2xx st body =>
    match successStage req2 st body with
    | .ok b => (.resolved b, rs2)
    | .error e => (.rejected e, rs2)
  | .httpErr st =>
    handleFailureWith appMode renv retryFn
      (.axios { config := some req2, respStatus := some st }) rs2
  | .transport =>
    handleFailureWith appMode renv retryFn
      (.axios { config := some req2, respStatus := none }) rs2

/-- A full request run with a fuel bound on the resubmission depth (the
marker logic itself guarantees at most one resubmission; fuel only makes
the recursion structural). -/
def submit (appMode : String) (renv : RefreshEnv) (env : Nat → ServerOutcome) :
    Nat → Request → RunState → ReqResult × RunState
  | 0 =>
    submitStep appMode renv env
      (fun _ rs => (.rejected (.jsError "out of fuel"), rs))
  | fuel + 1 =>
    submitStep appMode renv env (submit appMode renv env fuel)

/-- The phases of one `refreshToken()` invocation, split at its two
await points (`await OpenHands.getConfig()` and
`await OpenHands.refreshToken(...)`), for interleaved executions on the
single-threaded event loop. -/
inductive RTPhase where
  | start
  | gotConfig
  | awaitExchange
  | done
deriving Repr, DecidableEq

/-- One in-flight `refreshToken()` invocation: the outcomes its two
awaited calls will deliver, and how far it has progressed. -/
structure RTask where
  env : RefreshEnv
  phase : RTPhase
deriving Repr

/-- One cooperative step of an in-flight `refreshToken()` against the
shared session state: resume from the config fetch; then check the
guard synchronously and, if it passes, issue the exchange call (counted
in `exchCalls`) and suspend; then resume with the exchange result and
install or clear the GitHub token. Nothing is consulted or recorded
that another invocation could await. -/
def rtStep (t : RTask) (s : AuthState) (exchCalls : Nat) :
    RTask × AuthState × Nat :=
  match t.phase with
  | .start => ({ t with phase := .gotConfig }, s, exchCalls)
  | .gotConfig =>
    match t.env.config with
    | .error _ => ({ t with phase := .done }, s, exchCalls)
    | .ok mode =>
      if mode ≠ "saas" ∨ optTruthy s.gitHubToken = false then
        ({ t with phase := .done }, s, exchCalls)
      else ({ t with phase := .awaitExchange }, s, exchCalls + 1)
  | .awaitExchange =>
    match t.env.exchange with
    | .error _ => ({ t with phase := .done }, s, exchCalls)
    | .ok tok =>
      if optTruthy tok then ({ t with phase := .done }, setGitHubToken tok s, exchCalls)
      else ({ t with phase := .done }, clearGitHubToken s, exchCalls)
  | .done => (t, s, exchCalls)

/-- Two concurrent `refreshToken()` invocations sharing the session
state and an exchange-call counter. -/
structure TwoTasks where
  taskA : RTask
  taskB : RTask
  shared : AuthState
  exchCalls : Nat
deriving Repr

/-- Let one of the two tasks take its next cooperative step
(`true` steps task A, `false` steps task B). -/
def schedStep (which : Bool) (st : TwoTasks) : TwoTasks :=
  if which then
    match rtStep st.taskA st.shared st.exchCalls with
    | (t, s, c) => { st with taskA := t, shared := s, exchCalls := c }
  else
    match rtStep st.taskB st.shared st.exchCalls with
    | (t, s, c) => { st with taskB := t, shared := s, exchCalls := c }

/-- Run a concrete interleaving of the two tasks. -/
def runSched (sched : List Bool) (st : TwoTasks) : TwoTasks :=
  sched.foldl (fun acc w => schedStep w acc) st

/-- A concrete logged-in session state. -/
def sampleState : AuthState :=
  { gitHubToken := some "gh0"
    bitbucketToken := some "bb0"
    userId := "user-1"
    lsGhToken := some "gh0"
    lsBitbucketToken := some "bb0"
    lsUserId := some "user-1"
    openHandsAuthHeader := some "Bearer gh0"
    githubAuthHeader := some "Bearer gh0"
    bitbucketAuthHeader := some "Bearer bb0"
    analyticsId := some "anon-1" }

/-- Environment of a first concurrent `refreshToken()` invocation: saas
config, exchange delivers token `"ghA"`. -/
def envA : RefreshEnv := ⟨.ok "saas", .ok (some "ghA")⟩

/-- Environment of a second concurrent `refreshToken()` invocation:
saas config, exchange delivers token `"ghB"`. -/
def envB : RefreshEnv := ⟨.ok "saas", .ok (some "ghB")⟩

/-- Both invocations started, neither yet resumed. -/
def twoStart : TwoTasks := ⟨⟨envA, .start⟩, ⟨envB, .start⟩, sampleState, 0⟩

/-- Run one task alone for `n` cooperative steps. -/
def rtRun : Nat → RTask → AuthState → Nat → RTask × AuthState × Nat
  | 0, t, s, c => (t, s, c)
  | n + 1, t, s, c =>
    match rtStep t s c with
    | (t2, s2, c2) => rtRun n t2 s2 c2

/-- A fresh request: `_retry` unset, no explicit Authorization on the
config. -/
def req0 : Request := ⟨false, none⟩

/-- An already-retried request: `_retry` set. -/
def reqMarked : Request := ⟨true, none⟩

/-- A run starting from the sample logged-in session with no calls made
yet. -/
def rs0 : RunState := ⟨sampleState, 0, 0, []⟩

/-- A refresh environment where the refresh succeeds with token
`"ghNew"`. -/
def renvOk : RefreshEnv := ⟨.ok "saas", .ok (some "ghNew")⟩

/-- A refresh environment where the exchange completes without a token. -/
def renvDeny : RefreshEnv := ⟨.ok "saas", .ok none⟩

/-- A resubmission function stub for stage-level statements. -/
def stubRetry : Request → RunState → ReqResult × RunState :=
  fun _ rs => (.rejected (.jsError "stub"), rs)

/-- A server that answers 401 to every dispatch. -/
def env401 : Nat → ServerOutcome := fun _ => .httpErr 401

/-- A transport failure error value carrying the dispatched request. -/
def transportErr : FailureValue :=
  .axios { config := some req0, respStatus := none }

theorem hfw_noRefresh {appMode : String} {renv : RefreshEnv}
    {retryFn : Request → RunState → ReqResult × RunState}
    {e : FailureValue} {rs : RunState} (h : canRefresh e = false) :
    handleFailureWith appMode renv retryFn e rs =
      (.rejected (.jsError "Failed to refresh token"), rs) := by
  simp [handleFailureWith, h]

theorem hfw_marked {appMode : String} {renv : RefreshEnv}
    {retryFn : Request → RunState → ReqResult × RunState}
    {req : Request} {st : Nat} {rs : RunState}
    (h : req.retryMarker = true) (hst : st ≠ 0) :
    handleFailureWith appMode renv retryFn
        (.axios { config := some req, respStatus := some st }) rs =
      (.rejected (.axios { config := some req, respStatus := some st }), rs) := by
  simp [handleFailureWith, canRefresh, hst, h]

theorem hfw_non401 {appMode : String} {renv : RefreshEnv}
    {retryFn : Request → RunState → ReqResult × RunState}
    {req : Request} {st : Nat} {rs : RunState}
    (hst0 : st ≠ 0) (hst : st ≠ 401) :
    handleFailureWith appMode renv retryFn
        (.axios { config := some req, respStatus := some st }) rs =
      (.rejected (.axios { config := some req, respStatus := some st }), rs) := by
  simp [handleFailureWith, canRefresh, hst0, hst]

theorem hfw_401_nonSaas {appMode : String} (hm : appMode ≠ "saas")
    {renv : RefreshEnv} {retryFn : Request → RunState → ReqResult × RunState}
    {req : Request} {rs : RunState} (h : req.retryMarker = false) :
    handleFailureWith appMode renv retryFn
        (.axios { config := some req, respStatus := some 401 }) rs =
      (.rejected (.axios { config := some (markReq req), respStatus := some 401 }),
        rs) := by
  simp [handleFailureWith, canRefresh, h, hm, markReq]

theorem hfw_refresh_err {renv : RefreshEnv}
    {retryFn : Request → RunState → ReqResult × RunState}
    {req : Request} {rs : RunState} {m : String}
    (h : req.retryMarker = false)
    (hr : (refreshTokenRun renv rs.auth).result = .error m) :
    handleFailureWith "saas" renv retryFn
        (.axios { config := some req, respStatus := some 401 }) rs =
      (.rejected (.jsError m), doLogout (afterRefresh renv rs)) := by
  simp [handleFailureWith, canRefresh, h, hr]

theorem hfw_refresh_false {renv : RefreshEnv}
    {retryFn : Request → RunState → ReqResult × RunState}
    {req : Request} {rs : RunState}
    (h : req.retryMarker = false)
    (hr : (refreshTokenRun renv rs.auth).result = .ok false) :
    handleFailureWith "saas" renv retryFn
        (.axios { config := some req, respStatus := some 401 }) rs =
      (.rejected (.jsError "Failed to refresh token"),
        doLogout (doLogout (afterRefresh renv rs))) := by
  simp [handleFailureWith, canRefresh, h, hr]

theorem hfw_refresh_ok {renv : RefreshEnv}
    {retryFn : Request → RunState → ReqResult × RunState}
    {req : Request} {rs : RunState} {res : ReqResult} {rs3 : RunState}
    (h : req.retryMarker = false)
    (hr : (refreshTokenRun renv rs.auth).result = .ok true)
    (hretry : retryFn { req with retryMarker := true } (afterRefresh renv rs) =
      (res, rs3)) :
    handleFailureWith "saas" renv retryFn
        (.axios { config := some req, respStatus := some 401 }) rs =
      (match res with
       | .resolved b => (.resolved b, rs3)
       | .rejected re => (.rejected re, doLogout rs3)) := by
  cases res with
  | resolved b => simp [handleFailureWith, canRefresh, h, hr, hretry]
  | rejected re => simp [handleFailureWith, canRefresh, h, hr, hretry]

theorem submitStep_marked (appMode : String) (renv : RefreshEnv)
    (env : Nat → ServerOutcome)
    (retryFn : Request → RunState → ReqResult × RunState)
    (req : Request) (rs : RunState) (h : req.retryMarker = true) :
    (submitStep appMode renv env retryFn req rs).2 =
      recordDispatch (resolveReq req rs) rs := by
  obtain ⟨rm, au⟩ := req
  subst h
  simp only [submitStep]
  split
  · split <;> rfl
  · rename_i st heq
    by_cases hst : st = 0
    · subst hst
      rw [hfw_noRefresh (by simp [canRefresh])]
    · rw [hfw_marked rfl hst]
  · rw [hfw_noRefresh (by simp [canRefresh])]

theorem submit_marked (appMode : String) (renv : RefreshEnv)
    (env : Nat → ServerOutcome) (fuel : Nat)
    (req : Request) (rs : RunState) (h : req.retryMarker = true) :
    (submit appMode renv env fuel req rs).2 =
      recordDispatch (resolveReq req rs) rs := by
  cases fuel with
  | zero => exact submitStep_marked _ _ _ _ _ _ h
  | succ f => exact submitStep_marked _ _ _ _ _ _ h

theorem logout_clears (s : AuthState) :
    (logout s).gitHubToken = none ∧ (logout s).bitbucketToken = none ∧
    (logout s).lsGhToken = none ∧ (logout s).lsBitbucketToken = none ∧
    (logout s).userId = "" ∧ (logout s).lsUserId = none ∧
    (logout s).analyticsId = none ∧
    (logout s).openHandsAuthHeader = none ∧ (logout s).githubAuthHeader = none := by
  simp [logout, clearGitHubToken, clearBitbucketToken, removeGitHubAuthHeaderSpec]

theorem hfw_state_cases (appMode : String) (renv : RefreshEnv)
    (retryFn : Request → RunState → ReqResult × RunState)
    (e : FailureValue) (rs : RunState) :
    (handleFailureWith appMode renv retryFn e rs).2 = rs ∨
    (appMode = "saas" ∧
      (handleFailureWith appMode renv retryFn e rs).2 =
        doLogout (afterRefresh renv rs)) ∨
    (appMode = "saas" ∧
      (handleFailureWith appMode renv retryFn e rs).2 =
        doLogout (doLogout (afterRefresh renv rs))) ∨
    (∃ req res rs3, req.retryMarker = false ∧ appMode = "saas" ∧
      retryFn (markReq req) (afterRefresh renv rs) = (res, rs3) ∧
      ((handleFailureWith appMode renv retryFn e rs).2 = rs3 ∨
        (handleFailureWith appMode renv retryFn e rs).2 = doLogout rs3)) := by
  by_cases hcr : canRefresh e = true
  · rcases e with a | m
    · obtain ⟨creq, cst⟩ := a
      rcases creq with _ | req
      · simp [canRefresh] at hcr
      · rcases cst with _ | st
        · simp [canRefresh] at hcr
        · by_cases hst : st = 0
          · simp [canRefresh, hst] at hcr
          · by_cases h4 : st = 401
            · subst h4
              cases hrm : req.retryMarker
              · by_cases hsaas : appMode = "saas"
                · subst hsaas
                  cases hres : (refreshTokenRun renv rs.auth).result
                  · rw [hfw_refresh_err hrm hres]
                    exact Or.inr (Or.inl ⟨rfl, rfl⟩)
                  · rename_i b
                    cases b
                    · rw [hfw_refresh_false hrm hres]
                      exact Or.inr (Or.inr (Or.inl ⟨rfl, rfl⟩))
                    · rcases hretry : retryFn (markReq req)
                        (afterRefresh renv rs) with ⟨res, rs3⟩
                      rw [hfw_refresh_ok hrm hres (by simpa [markReq] using hretry)]
                      refine Or.inr (Or.inr (Or.inr
                        ⟨req, res, rs3, hrm, rfl, hretry, ?_⟩))
                      cases res
                      · exact Or.inl rfl
                      · exact Or.inr rfl
                · rw [hfw_401_nonSaas hsaas hrm]
                  exact Or.inl rfl
              · rw [hfw_marked hrm hst]
                exact Or.inl rfl
            · rw [hfw_non401 hst h4]
              exact Or.inl rfl
    · simp [canRefresh] at hcr
  · rw [hfw_noRefresh (by revert hcr; cases canRefresh e <;> simp)]
    exact Or.inl rfl

theorem hfw_length (appMode : String) (renv : RefreshEnv)
    (retryFn : Request → RunState → ReqResult × RunState)
    (hretry : ∀ q r, q.retryMarker = true →
      ((retryFn q r).2).dispatched.length ≤ r.dispatched.length + 1)
    (e : FailureValue) (rs : RunState) :
    ((handleFailureWith appMode renv retryFn e rs).2).dispatched.length ≤
      rs.dispatched.length + 1 := by
  rcases hfw_state_cases appMode renv retryFn e rs with h | ⟨hs2, h⟩ | ⟨hs3, h⟩ |
    ⟨req, res, rs3, hq, hsaas, hretryEq, h | h⟩
  · rw [h]; omega
  · rw [h]; simp only [doLogout, afterRefresh]; omega
  · rw [h]; simp only [doLogout, afterRefresh]; omega
  · rw [h]
    have hb := hretry (markReq req) (afterRefresh renv rs) rfl
    rw [hretryEq] at hb
    simpa [afterRefresh] using hb
  · rw [h]
    simp only [doLogout]
    have hb := hretry (markReq req) (afterRefresh renv rs) rfl
    rw [hretryEq] at hb
    simpa [afterRefresh] using hb

theorem submitStep_length (appMode : String) (renv : RefreshEnv)
    (env : Nat → ServerOutcome)
    (retryFn : Request → RunState → ReqResult × RunState)
    (hretry : ∀ q r, q.retryMarker = true →
      ((retryFn q r).2).dispatched.length ≤ r.dispatched.length + 1)
    (req : Request) (rs : RunState) :
    ((submitStep appMode renv env retryFn req rs).2).dispatched.length ≤
      rs.dispatched.length + 2 := by
  simp only [submitStep]
  split
  · split <;> simp [recordDispatch]
  · rename_i st heq
    have hb := hfw_length appMode renv retryFn hretry
      (.axios { config := some (resolveReq req rs), respStatus := some st })
      (recordDispatch (resolveReq req rs) rs)
    simp only [recordDispatch] at hb ⊢
    simp at hb
    omega
  · have hb := hfw_length appMode renv retryFn hretry
      (.axios { config := some (resolveReq req rs), respStatus := none })
      (recordDispatch (resolveReq req rs) rs)
    simp only [recordDispatch] at hb ⊢
    simp at hb
    omega

theorem submit_length (appMode : String) (renv : RefreshEnv)
    (env : Nat → ServerOutcome) (fuel : Nat) (req : Request) (rs : RunState) :
    ((submit appMode renv env fuel req rs).2).dispatched.length ≤
      rs.dispatched.length + 2 := by
  cases fuel with
  | zero =>
    exact submitStep_length appMode renv env _ (fun q r hq => by simp) req rs
  | succ f =>
    refine submitStep_length appMode renv env _ (fun q r hq => ?_) req rs
    rw [submit_marked appMode renv env f q r hq]
    simp [recordDispatch]

theorem option_orElse_self (o : Option String) :
    (o.orElse fun _ => o) = o := by
  cases o <;> rfl

theorem hfw_nonSaas_state {appMode : String} (hm : appMode ≠ "saas")
    (renv : RefreshEnv) (retryFn : Request → RunState → ReqResult × RunState)
    (e : FailureValue) (rs : RunState) :
    (handleFailureWith appMode renv retryFn e rs).2 = rs := by
  rcases hfw_state_cases appMode renv retryFn e rs with h | ⟨hs, h⟩ | ⟨hs, h⟩ |
    ⟨req, res, rs3, hq, hs, hretryEq, h⟩
  · exact h
  · exact absurd hs hm
  · exact absurd hs hm
  · exact absurd hs hm

theorem submitStep_nonSaas {appMode : String} (hm : appMode ≠ "saas")
    (renv : RefreshEnv) (env : Nat → ServerOutcome)
    (retryFn : Request → RunState → ReqResult × RunState)
    (req : Request) (rs : RunState) :
    (submitStep appMode renv env retryFn req rs).2 =
      recordDispatch (resolveReq req rs) rs := by
  simp only [submitStep]
  split
  · split <;> rfl
  · exact hfw_nonSaas_state hm _ _ _ _
  · exact hfw_nonSaas_state hm _ _ _ _

theorem submit_nonSaas {appMode : String} (hm : appMode ≠ "saas")
    (renv : RefreshEnv) (env : Nat → ServerOutcome) (fuel : Nat)
    (req : Request) (rs : RunState) :
    (submit appMode renv env fuel req rs).2 =
      recordDispatch (resolveReq req rs) rs := by
  cases fuel with
  | zero => exact submitStep_nonSaas hm _ _ _ _ _
  | succ f => exact submitStep_nonSaas hm _ _ _ _ _

theorem rtRun_refines (env : RefreshEnv) (s : AuthState) :
    (rtRun 3 ⟨env, .start⟩ s 0).2.1 = (refreshTokenRun env s).state ∧
    (rtRun 3 ⟨env, .start⟩ s 0).2.2 =
      (if (refreshTokenRun env s).exchangeCalled then 1 else 0) ∧
    (rtRun 3 ⟨env, .start⟩ s 0).1.phase = RTPhase.done := by
  obtain ⟨cfg, exch⟩ := env
  cases cfg with
  | error m => simp [rtRun, rtStep, refreshTokenRun]
  | ok mode =>
    by_cases hg : mode ≠ "saas" ∨ optTruthy s.gitHubToken = false
    · simp [rtRun, rtStep, refreshTokenRun, hg]
    · cases exch with
      | error m => simp [rtRun, rtStep, refreshTokenRun, hg]
      | ok tok =>
        by_cases ht : optTruthy tok = true
        · simp [rtRun, rtStep, refreshTokenRun, hg, ht]
        · simp [rtRun, rtStep, refreshTokenRun, hg, ht]

theorem isBB_eq_specShape (body : JsValue) :
    isBitbucketErrorResponse body = specErrorShape body := by
  cases body with
  | null => rfl
  | undefined => rfl
  | bool b => simp [isBitbucketErrorResponse, specErrorShape, JsValue.hasMessageProp]
  | num n => simp [isBitbucketErrorResponse, specErrorShape, JsValue.hasMessageProp]
  | str v => simp [isBitbucketErrorResponse, specErrorShape, JsValue.hasMessageProp]
  | arr l => simp [isBitbucketErrorResponse, specErrorShape, JsValue.hasMessageProp]
  | obj fields =>
    simp only [isBitbucketErrorResponse, specErrorShape, JsValue.truthy,
      JsValue.hasMessageProp, JsValue.messageVal, Bool.true_and]
    cases hf : fields.find? (fun f => f.1 == "message") with
    | none =>
      have hany : fields.any (fun f => f.1 == "message") = false := by
        rw [List.any_eq_false]
        intro x hx
        have := List.find?_eq_none.mp hf x hx
        simpa using this
      simp [hany]
    | some f =>
      have hmem := List.mem_of_find?_eq_some hf
      have hprop := List.find?_some hf
      have hany : fields.any (fun f => f.1 == "message") = true := by
        rw [List.any_eq_true]
        exact ⟨f, hmem, hprop⟩
      simp [hany]

example : isBitbucketErrorResponse (.obj [("message", .str "oops")]) = true := by decide
example : isBitbucketErrorResponse (.obj [("message", .undefined)]) = false := by decide
example : isBitbucketErrorResponse (.arr [.str "message"]) = false := by decide
example : inOperatorThrows (.str "hi") = true := by decide
example : (logout (logout ⟨some "g", some "b", "u", some "g", some "b", some "u",
    some "Bearer g", some "Bearer g", some "Bearer b", some "id"⟩)) =
    (logout ⟨some "g", some "b", "u", some "g", some "b", some "u",
    some "Bearer g", some "Bearer g", some "Bearer b", some "id"⟩) := by decide

/-- C1: for each provider, setting a (non-empty) token synchronously
stores it as the credential (state and localStorage) and installs
`"Bearer " ++ t` as the client's default Authorization header; setting
an absent token is the same operation as clearing; clearing removes the
stored credential and removes the header entirely (absent, not
empty-string); after each of these operations header state mirrors
credential state. -/
theorem C1_set_clear_header_mirror (s : AuthState) (t : String)
    (ht : t ≠ "") (hbb : s.bitbucketAuthHeader ≠ some "") :
    ((setBitbucketToken (some t) s).bitbucketToken = some t ∧
      (setBitbucketToken (some t) s).lsBitbucketToken = some t ∧
      (setBitbucketToken (some t) s).bitbucketAuthHeader =
        some ("Bearer " ++ t) ∧
      bbMirror (setBitbucketToken (some t) s)) ∧
    setBitbucketToken none s = clearBitbucketToken s ∧
    ((clearBitbucketToken s).bitbucketToken = none ∧
      (clearBitbucketToken s).lsBitbucketToken = none ∧
      (clearBitbucketToken s).bitbucketAuthHeader = none ∧
      bbMirror (clearBitbucketToken s)) ∧
    ((setGitHubToken (some t) s).gitHubToken = some t ∧
      (setGitHubToken (some t) s).lsGhToken = some t ∧
      (setGitHubToken (some t) s).githubAuthHeader = some ("Bearer " ++ t) ∧
      (setGitHubToken (some t) s).openHandsAuthHeader = some ("Bearer " ++ t) ∧
      ghMirror (setGitHubToken (some t) s)) ∧
    setGitHubToken none s = clearGitHubToken s ∧
    ((clearGitHubToken s).gitHubToken = none ∧
      (clearGitHubToken s).lsGhToken = none ∧
      (clearGitHubToken s).githubAuthHeader = none ∧
      (clearGitHubToken s).openHandsAuthHeader = none ∧
      ghMirror (clearGitHubToken s)) := by
  have htt : optTruthy (some t) = true := by simp [optTruthy, ht]
  obtain ⟨gh, bb, uid, lg, lb, lu, oh, ghh, bbh, an⟩ := s
  have hrem : removeAuthTokenHeader bbh = none := by
    rcases bbh with _ | x
    · rfl
    · have hx : x ≠ "" := fun hx => hbb (by rw [hx])
      simp [removeAuthTokenHeader, optTruthy, hx]
  refine ⟨?_, ?_, ?_, ?_, ?_, ?_⟩
  · simp [setBitbucketToken, htt, setAuthTokenHeader, bbMirror]
  · rfl
  · simp [clearBitbucketToken, bbMirror, hrem]
  · simp [setGitHubToken, htt, setGitHubAuthHeaderSpec, ghMirror]
  · rfl
  · simp [clearGitHubToken, ghMirror, removeGitHubAuthHeaderSpec]

/-- Witness for C1 at the sample state and token `"tok"`. -/
theorem C1_set_clear_header_mirror_witness :
    ("tok" ≠ "" ∧ sampleState.bitbucketAuthHeader ≠ some "") ∧
    ((setBitbucketToken (some "tok") sampleState).bitbucketToken = some "tok" ∧
      (setBitbucketToken (some "tok") sampleState).lsBitbucketToken = some "tok" ∧
      (setBitbucketToken (some "tok") sampleState).bitbucketAuthHeader =
        some ("Bearer " ++ "tok") ∧
      bbMirror (setBitbucketToken (some "tok") sampleState)) ∧
    setBitbucketToken none sampleState = clearBitbucketToken sampleState ∧
    ((clearBitbucketToken sampleState).bitbucketToken = none ∧
      (clearBitbucketToken sampleState).lsBitbucketToken = none ∧
      (clearBitbucketToken sampleState).bitbucketAuthHeader = none ∧
      bbMirror (clearBitbucketToken sampleState)) ∧
    ((setGitHubToken (some "tok") sampleState).gitHubToken = some "tok" ∧
      (setGitHubToken (some "tok") sampleState).lsGhToken = some "tok" ∧
      (setGitHubToken (some "tok") sampleState).githubAuthHeader =
        some ("Bearer " ++ "tok") ∧
      (setGitHubToken (some "tok") sampleState).openHandsAuthHeader =
        some ("Bearer " ++ "tok") ∧
      ghMirror (setGitHubToken (some "tok") sampleState)) ∧
    setGitHubToken none sampleState = clearGitHubToken sampleState ∧
    ((clearGitHubToken sampleState).gitHubToken = none ∧
      (clearGitHubToken sampleState).lsGhToken = none ∧
      (clearGitHubToken sampleState).githubAuthHeader = none ∧
      (clearGitHubToken sampleState).openHandsAuthHeader = none ∧
      ghMirror (clearGitHubToken sampleState)) :=
  ⟨⟨by decide, by decide⟩,
    C1_set_clear_header_mirror sampleState "tok" (by decide) (by decide)⟩

/-- C8: `logout()` clears both providers' credentials (state and
localStorage, with their Authorization headers removed), clears the user
identity, resets the analytics identity, and is idempotent. -/
theorem C8_logout_clears_idempotent (s : AuthState)
    (hbb : s.bitbucketAuthHeader ≠ some "") :
    (logout s).gitHubToken = none ∧
    (logout s).bitbucketToken = none ∧
    (logout s).lsGhToken = none ∧
    (logout s).lsBitbucketToken = none ∧
    (logout s).userId = "" ∧
    (logout s).lsUserId = none ∧
    (logout s).analyticsId = none ∧
    (logout s).openHandsAuthHeader = none ∧
    (logout s).githubAuthHeader = none ∧
    (logout s).bitbucketAuthHeader = none ∧
    logout (logout s) = logout s := by
  obtain ⟨gh, bb, uid, lg, lb, lu, oh, ghh, bbh, an⟩ := s
  have hrem : removeAuthTokenHeader bbh = none := by
    rcases bbh with _ | x
    · rfl
    · have hx : x ≠ "" := fun hx => hbb (by rw [hx])
      simp [removeAuthTokenHeader, optTruthy, hx]
  have hrem0 : removeAuthTokenHeader none = none := rfl
  simp [logout, clearGitHubToken, clearBitbucketToken,
    removeGitHubAuthHeaderSpec, hrem, hrem0]

/-- Witness for C8 at the sample logged-in state. -/
theorem C8_logout_clears_idempotent_witness :
    (sampleState.bitbucketAuthHeader ≠ some "") ∧
    ((logout sampleState).gitHubToken = none ∧
      (logout sampleState).bitbucketToken = none ∧
      (logout sampleState).lsGhToken = none ∧
      (logout sampleState).lsBitbucketToken = none ∧
      (logout sampleState).userId = "" ∧
      (logout sampleState).lsUserId = none ∧
      (logout sampleState).analyticsId = none ∧
      (logout sampleState).openHandsAuthHeader = none ∧
      (logout sampleState).githubAuthHeader = none ∧
      (logout sampleState).bitbucketAuthHeader = none ∧
      logout (logout sampleState) = logout sampleState) :=
  ⟨by decide, C8_logout_clears_idempotent sampleState (by decide)⟩

/-- C3: `refreshToken()` returns `false` with no exchange call and no
credential mutation unless the fetched mode is `"saas"` and a (truthy)
stored GitHub token is present; otherwise it performs the exchange and
either installs the received token via the credential setter (cascading
to the headers) and returns `true`, or, when the exchange completes
without a token, clears the GitHub credential and returns `false`. -/
theorem C3_refreshToken_contract (renv : RefreshEnv) (s : AuthState)
    (mode : String) (hc : renv.config = .ok mode) :
    (¬ (mode = "saas" ∧ optTruthy s.gitHubToken = true) →
      refreshTokenRun renv s = ⟨.ok false, s, false⟩) ∧
    (∀ tok, mode = "saas" → optTruthy s.gitHubToken = true →
      renv.exchange = .ok tok →
      (optTruthy tok = true →
        refreshTokenRun renv s = ⟨.ok true, setGitHubToken tok s, true⟩ ∧
        (setGitHubToken tok s).gitHubToken = tok ∧
        ghMirror (setGitHubToken tok s)) ∧
      (optTruthy tok = false →
        refreshTokenRun renv s = ⟨.ok false, clearGitHubToken s, true⟩ ∧
        (clearGitHubToken s).gitHubToken = none ∧
        ghMirror (clearGitHubToken s))) := by
  constructor
  · intro hng
    have hcond : mode ≠ "saas" ∨ optTruthy s.gitHubToken = false := by
      by_cases h1 : mode = "saas"
      · cases hgt : optTruthy s.gitHubToken
        · exact Or.inr rfl
        · exact absurd ⟨h1, hgt⟩ hng
      · exact Or.inl h1
    simp only [refreshTokenRun, hc]
    rw [if_pos hcond]
  · intro tok hmode hgt hx
    subst hmode
    have hcond : ¬("saas" ≠ "saas" ∨ optTruthy s.gitHubToken = false) := by
      simp [hgt]
    constructor
    · intro htok
      refine ⟨?_, ?_, ?_⟩
      · simp only [refreshTokenRun, hc, hx]
        rw [if_neg hcond, if_pos htok]
      · rcases tok with _ | x
        · simp [optTruthy] at htok
        · simp [setGitHubToken, htok]
      · rcases tok with _ | x
        · simp [optTruthy] at htok
        · have hx2 : x ≠ "" := by simpa [optTruthy] using htok
          simp [setGitHubToken, optTruthy, hx2, ghMirror, setGitHubAuthHeaderSpec]
    · intro htok
      refine ⟨?_, ?_, ?_⟩
      · simp only [refreshTokenRun, hc, hx]
        rw [if_neg hcond, if_neg (by simp [htok])]
      · simp [clearGitHubToken]
      · simp [clearGitHubToken, ghMirror, removeGitHubAuthHeaderSpec]

/-- Witness for C3: in saas mode with a stored GitHub token, a
completed exchange delivering `"ghNew"` installs it and returns true. -/
theorem C3_refreshToken_contract_witness :
    renvOk.config = .ok "saas" ∧ optTruthy sampleState.gitHubToken = true ∧
    renvOk.exchange = .ok (some "ghNew") ∧ optTruthy (some "ghNew") = true ∧
    refreshTokenRun renvOk sampleState =
      ⟨.ok true, setGitHubToken (some "ghNew") sampleState, true⟩ :=
  ⟨rfl, by decide, rfl, by decide,
    (((C3_refreshToken_contract renvOk sampleState "saas" rfl).2
      (some "ghNew") rfl (by decide) rfl).1 (by decide)).1⟩

/-- C2: the pipeline triggers at most one automatic retry per original
request: a run from an unmarked request dispatches at most twice; a run
from a marked request dispatches exactly once, with no refresh call, no
logout and no state change; and a 401 carried by a request whose marker
is already set is passed through to the caller unchanged, with no
further refresh call and no further retry. -/
theorem C2_at_most_one_retry (appMode : String) (renv : RefreshEnv)
    (env : Nat → ServerOutcome)
    (retryFn : Request → RunState → ReqResult × RunState)
    (fuel : Nat) (req reqM : Request) (rs rsM : RunState)
    (h : req.retryMarker = false) (hM : reqM.retryMarker = true) :
    ((submit appMode renv env fuel req rs).2).dispatched.length ≤
      rs.dispatched.length + 2 ∧
    (submit appMode renv env fuel reqM rsM).2 =
      recordDispatch (resolveReq reqM rsM) rsM ∧
    handleFailureWith appMode renv retryFn
        (.axios { config := some reqM, respStatus := some 401 }) rsM =
      (.rejected (.axios { config := some reqM, respStatus := some 401 }), rsM) :=
  ⟨submit_length appMode renv env fuel req rs,
    submit_marked appMode renv env fuel reqM rsM hM,
    hfw_marked hM (by omega)⟩

/-- Witness for C2: one fresh and one already-retried request against a
server that always answers 401. -/
theorem C2_at_most_one_retry_witness :
    req0.retryMarker = false ∧ reqMarked.retryMarker = true ∧
    ((submit "saas" renvOk env401 2 req0 rs0).2).dispatched.length ≤
      rs0.dispatched.length + 2 ∧
    (submit "saas" renvOk env401 2 reqMarked rs0).2 =
      recordDispatch (resolveReq reqMarked rs0) rs0 ∧
    handleFailureWith "saas" renvOk stubRetry
        (.axios { config := some reqMarked, respStatus := some 401 }) rs0 =
      (.rejected (.axios { config := some reqMarked, respStatus := some 401 }),
        rs0) :=
  ⟨rfl, rfl,
    C2_at_most_one_retry "saas" renvOk env401 stubRetry 2 req0 reqMarked
      rs0 rs0 rfl rfl⟩

/-- C7: when the mode given to the interceptor is not "saas", a 401
never invokes the refresh callback and never retries: the failure stage
rejects the original error (its config carrying the marker), and a whole
run performs exactly one dispatch with refresh count, logout count and
session state untouched. -/
theorem C7_non_saas_passthrough (appMode : String) (renv : RefreshEnv)
    (env : Nat → ServerOutcome)
    (retryFn : Request → RunState → ReqResult × RunState)
    (fuel : Nat) (req : Request) (rs : RunState)
    (hm : appMode ≠ "saas") :
    (req.retryMarker = false →
      handleFailureWith appMode renv retryFn
          (.axios { config := some req, respStatus := some 401 }) rs =
        (.rejected (.axios { config := some (markReq req), respStatus := some 401 }),
          rs)) ∧
    (req.retryMarker = true →
      handleFailureWith appMode renv retryFn
          (.axios { config := some req, respStatus := some 401 }) rs =
        (.rejected (.axios { config := some req, respStatus := some 401 }), rs)) ∧
    (submit appMode renv env fuel req rs).2 =
      recordDispatch (resolveReq req rs) rs :=
  ⟨fun h => hfw_401_nonSaas hm h,
    fun h => hfw_marked h (by omega),
    submit_nonSaas hm renv env fuel req rs⟩

/-- Witness for C7 in a self-hosted ("oss") deployment. -/
theorem C7_non_saas_passthrough_witness :
    ("oss" : String) ≠ "saas" ∧ req0.retryMarker = false ∧
    handleFailureWith "oss" renvOk stubRetry
        (.axios { config := some req0, respStatus := some 401 }) rs0 =
      (.rejected (.axios { config := some (markReq req0), respStatus := some 401 }),
        rs0) ∧
    (submit "oss" renvOk env401 2 req0 rs0).2 =
      recordDispatch (resolveReq req0 rs0) rs0 :=
  ⟨by decide, rfl,
    (C7_non_saas_passthrough "oss" renvOk env401 stubRetry 2 req0 rs0
      (by decide)).1 rfl,
    (C7_non_saas_passthrough "oss" renvOk env401 stubRetry 2 req0 rs0
      (by decide)).2.2⟩

/-- C4: on a first-occurrence 401 in saas mode where the refresh
coordinator returns false or throws, the failure stage invokes the
logout callback (clearing every provider's token, the user id and the
analytics identity) and the caller's promise is rejected. -/
theorem C4_refresh_failure_logs_out (renv : RefreshEnv)
    (retryFn : Request → RunState → ReqResult × RunState)
    (req : Request) (rs : RunState)
    (h : req.retryMarker = false)
    (hfail : (refreshTokenRun renv rs.auth).result ≠ .ok true) :
    (∃ msg, (handleFailureWith "saas" renv retryFn
        (.axios { config := some req, respStatus := some 401 }) rs).1 =
      .rejected (.jsError msg)) ∧
    ((handleFailureWith "saas" renv retryFn
        (.axios { config := some req, respStatus := some 401 }) rs).2).logoutCalls ≥
      rs.logoutCalls + 1 ∧
    ((handleFailureWith "saas" renv retryFn
        (.axios { config := some req, respStatus := some 401 }) rs).2).refreshCalls =
      rs.refreshCalls + 1 ∧
    ((handleFailureWith "saas" renv retryFn
        (.axios { config := some req, respStatus := some 401 }) rs).2).auth.gitHubToken =
      none ∧
    ((handleFailureWith "saas" renv retryFn
        (.axios { config := some req, respStatus := some 401 }) rs).2).auth.bitbucketToken =
      none ∧
    ((handleFailureWith "saas" renv retryFn
        (.axios { config := some req, respStatus := some 401 }) rs).2).auth.userId =
      "" ∧
    ((handleFailureWith "saas" renv retryFn
        (.axios { config := some req, respStatus := some 401 }) rs).2).auth.lsGhToken =
      none ∧
    ((handleFailureWith "saas" renv retryFn
        (.axios { config := some req, respStatus := some 401 }) rs).2).auth.lsBitbucketToken =
      none ∧
    ((handleFailureWith "saas" renv retryFn
        (.axios { config := some req, respStatus := some 401 }) rs).2).auth.lsUserId =
      none ∧
    ((handleFailureWith "saas" renv retryFn
        (.axios { config := some req, respStatus := some 401 }) rs).2).auth.analyticsId =
      none := by
  cases hres : (refreshTokenRun renv rs.auth).result with
  | error m =>
    rw [hfw_refresh_err h hres]
    have hl := logout_clears ((afterRefresh renv rs).auth)
    refine ⟨⟨m, rfl⟩, ?_, ?_, ?_, ?_, ?_, ?_, ?_, ?_, ?_⟩
    · simp [doLogout, afterRefresh]
    · simp [doLogout, afterRefresh]
    · simpa [doLogout] using hl.1
    · simpa [doLogout] using hl.2.1
    · simpa [doLogout] using hl.2.2.2.2.1
    · simpa [doLogout] using hl.2.2.1
    · simpa [doLogout] using hl.2.2.2.1
    · simpa [doLogout] using hl.2.2.2.2.2.1
    · simpa [doLogout] using hl.2.2.2.2.2.2.1
  | ok b =>
    cases b with
    | true => exact absurd hres hfail
    | false =>
      rw [hfw_refresh_false h hres]
      have hl := logout_clears (logout ((afterRefresh renv rs).auth))
      refine ⟨⟨"Failed to refresh token", rfl⟩, ?_, ?_, ?_, ?_, ?_, ?_, ?_, ?_, ?_⟩
      · simp [doLogout, afterRefresh]
      · simp [doLogout, afterRefresh]
      · simpa [doLogout] using hl.1
      · simpa [doLogout] using hl.2.1
      · simpa [doLogout] using hl.2.2.2.2.1
      · simpa [doLogout] using hl.2.2.1
      · simpa [doLogout] using hl.2.2.2.1
      · simpa [doLogout] using hl.2.2.2.2.2.1
      · simpa [doLogout] using hl.2.2.2.2.2.2.1

/-- Witness for C4: the exchange completes without a token, so the
refresh returns false; logout runs and the caller is rejected. -/
theorem C4_refresh_failure_logs_out_witness :
    req0.retryMarker = false ∧
    (refreshTokenRun renvDeny rs0.auth).result ≠ .ok true ∧
    (∃ msg, (handleFailureWith "saas" renvDeny stubRetry
        (.axios { config := some req0, respStatus := some 401 }) rs0).1 =
      .rejected (.jsError msg)) ∧
    ((handleFailureWith "saas" renvDeny stubRetry
        (.axios { config := some req0, respStatus := some 401 }) rs0).2).logoutCalls ≥
      rs0.logoutCalls + 1 ∧
    ((handleFailureWith "saas" renvDeny stubRetry
        (.axios { config := some req0, respStatus := some 401 }) rs0).2).auth.gitHubToken =
      none ∧
    ((handleFailureWith "saas" renvDeny stubRetry
        (.axios { config := some req0, respStatus := some 401 }) rs0).2).auth.bitbucketToken =
      none ∧
    ((handleFailureWith "saas" renvDeny stubRetry
        (.axios { config := some req0, respStatus := some 401 }) rs0).2).auth.userId =
      "" := by
  have hfail : (refreshTokenRun renvDeny rs0.auth).result ≠ .ok true := by
    intro hcon
    have hres : (refreshTokenRun renvDeny rs0.auth).result = .ok false := rfl
    rw [hres] at hcon
    simp at hcon
  have hc := C4_refresh_failure_logs_out renvDeny stubRetry req0 rs0 rfl hfail
  exact ⟨rfl, hfail, hc.1, hc.2.1, hc.2.2.2.1, hc.2.2.2.2.1, hc.2.2.2.2.2.1⟩

/-- C6 counterexample: a transport failure (AxiosError with no
response) is not surfaced to the caller unmodified — the stage rejects
a fresh generic error in its place. -/
theorem C6_counterexample :
    canRefresh transportErr = false ∧
    (handleFailureWith "saas" renvOk stubRetry transportErr rs0).1 ≠
      ReqResult.rejected transportErr ∧
    (handleFailureWith "saas" renvOk stubRetry transportErr rs0).1 =
      ReqResult.rejected (.jsError "Failed to refresh token") := by
  refine ⟨rfl, ?_, ?_⟩
  · rw [hfw_noRefresh (show canRefresh transportErr = false from rfl)]
    simp [transportErr]
  · rw [hfw_noRefresh (show canRefresh transportErr = false from rfl)]

/-- C6 (amended): a failure that does not carry an HTTP response with a
status (config, response, or status missing — `canRefresh` false)
triggers no refresh and no retry and leaves the run state untouched,
but the caller receives a fresh generic "Failed to refresh token"
rejection in place of the original failure; a whole run against a
transport failure makes exactly one dispatch and rejects generically. -/
theorem C6_transport_no_recovery (appMode : String) (renv : RefreshEnv)
    (env : Nat → ServerOutcome)
    (retryFn : Request → RunState → ReqResult × RunState)
    (fuel : Nat) (req : Request) (rs : RunState)
    (e : FailureValue) (h : canRefresh e = false)
    (henv : env rs.dispatched.length = .transport) :
    handleFailureWith appMode renv retryFn e rs =
      (.rejected (.jsError "Failed to refresh token"), rs) ∧
    submit appMode renv env fuel req rs =
      (.rejected (.jsError "Failed to refresh token"),
        recordDispatch (resolveReq req rs) rs) := by
  refine ⟨hfw_noRefresh h, ?_⟩
  cases fuel with
  | zero =>
    simp only [submit, submitStep, henv]
    rw [hfw_noRefresh (by simp [canRefresh])]
  | succ f =>
    simp only [submit, submitStep, henv]
    rw [hfw_noRefresh (by simp [canRefresh])]

/-- Witness for C6 (amended): a transport failure at the first
dispatch. -/
theorem C6_transport_no_recovery_witness :
    canRefresh transportErr = false ∧
    (fun _ => ServerOutcome.transport) rs0.dispatched.length =
      ServerOutcome.transport ∧
    handleFailureWith "saas" renvOk stubRetry transportErr rs0 =
      (.rejected (.jsError "Failed to refresh token"), rs0) ∧
    submit "saas" renvOk (fun _ => ServerOutcome.transport) 2 req0 rs0 =
      (.rejected (.jsError "Failed to refresh token"),
        recordDispatch (resolveReq req0 rs0) rs0) :=
  ⟨rfl, rfl,
    (C6_transport_no_recovery "saas" renvOk (fun _ => ServerOutcome.transport)
      stubRetry 2 req0 rs0 transportErr rfl rfl).1,
    (C6_transport_no_recovery "saas" renvOk (fun _ => ServerOutcome.transport)
      stubRetry 2 req0 rs0 transportErr rfl rfl).2⟩

/-- C5 counterexample: a 2xx response whose parsed body is the truthy
primitive string "oops" — which is not an object or array containing a
`message` property — is not passed through unchanged: evaluating the
error-shape check on it throws a TypeError, so the response is turned
into a rejection. -/
theorem C5_counterexample :
    specErrorShape (JsValue.str "oops") = false ∧
    isBitbucketErrorResponse (JsValue.str "oops") = false ∧
    successStage req0 200 (JsValue.str "oops") =
      Except.error (FailureValue.jsError "TypeError") ∧
    successStage req0 200 (JsValue.str "oops") ≠
      Except.ok (JsValue.str "oops") := by
  refine ⟨rfl, rfl, rfl, ?_⟩
  have h1 : successStage req0 200 (JsValue.str "oops") =
      Except.error (FailureValue.jsError "TypeError") := rfl
  rw [h1]
  intro hcon
  exact Except.noConfusion hcon

/-- C5 (amended): the stage synthesizes a failure iff the body matches
the error shape, where the source's check agrees exactly with the
spec's "non-null object or array structurally containing a defined
`message` property"; a non-matching, non-throwing body passes through
unchanged; but a truthy primitive body makes the check itself throw a
TypeError, rejecting the response. -/
theorem C5_success_stage (req : Request) (st : Nat) (body : JsValue) :
    isBitbucketErrorResponse body = specErrorShape body ∧
    (inOperatorThrows body = false → isBitbucketErrorResponse body = false →
      successStage req st body = .ok body) ∧
    (inOperatorThrows body = false → isBitbucketErrorResponse body = true →
      successStage req st body =
        .error (.axios { config := some req, respStatus := some st })) ∧
    (inOperatorThrows body = true →
      successStage req st body = .error (.jsError "TypeError")) := by
  refine ⟨isBB_eq_specShape body, ?_, ?_, ?_⟩
  · intro h1 h2
    simp [successStage, h1, h2]
  · intro h1 h2
    simp [successStage, h1, h2]
  · intro h1
    simp [successStage, h1]

/-- Witness for C5 (amended): a 200 body carrying a `message` field is
converted into a synthesized failure; a plain object without one passes
through. -/
theorem C5_success_stage_witness :
    inOperatorThrows (JsValue.obj [("message", JsValue.str "bad")]) = false ∧
    isBitbucketErrorResponse (JsValue.obj [("message", JsValue.str "bad")]) = true ∧
    successStage req0 200 (JsValue.obj [("message", JsValue.str "bad")]) =
      Except.error (.axios { config := some req0, respStatus := some 200 }) ∧
    inOperatorThrows (JsValue.obj [("ok", JsValue.bool true)]) = false ∧
    isBitbucketErrorResponse (JsValue.obj [("ok", JsValue.bool true)]) = false ∧
    successStage req0 200 (JsValue.obj [("ok", JsValue.bool true)]) =
      Except.ok (JsValue.obj [("ok", JsValue.bool true)]) :=
  ⟨rfl, rfl,
    (C5_success_stage req0 200 (JsValue.obj [("message", JsValue.str "bad")])).2.2.1
      rfl rfl,
    rfl, rfl,
    (C5_success_stage req0 200 (JsValue.obj [("ok", JsValue.bool true)])).2.1
      rfl rfl⟩

/-- C9: nothing serializes concurrent refresh attempts — there is no
shared in-flight promise — so interleaving two `refreshToken()`
invocations (both started before either resumes) leaves both suspended
on their own token exchange at once (two exchange calls for a single
401 burst, not one), and each independently overwrites the shared
GitHub credential, first with task A's token and then with task B's. -/
theorem C9_unserialized_concurrent_refresh :
    (runSched [true, false, true, false] twoStart).taskA.phase =
      RTPhase.awaitExchange ∧
    (runSched [true, false, true, false] twoStart).taskB.phase =
      RTPhase.awaitExchange ∧
    (runSched [true, false, true, false] twoStart).exchCalls = 2 ∧
    (runSched [true, false, true, false, true] twoStart).shared.gitHubToken =
      some "ghA" ∧
    (runSched [true, false, true, false, true, false] twoStart).shared.gitHubToken =
      some "ghB" ∧
    (runSched [true, false, true, false, true, false] twoStart).taskA.phase =
      RTPhase.done ∧
    (runSched [true, false, true, false, true, false] twoStart).taskB.phase =
      RTPhase.done ∧
    (runSched [true, false, true, false, true, false] twoStart).exchCalls = 2 :=
  ⟨rfl, rfl, rfl, rfl, rfl, rfl, rfl, rfl⟩

/-- C10: in saas mode, a successful refresh triggered by a first 401
installs a new GitHub token only — the Bitbucket credential and the
Bitbucket client's Authorization header are left unchanged — so the
retried Bitbucket request is resubmitted carrying the same Authorization
value that produced the 401. -/
theorem C10_refresh_frame_same_auth (renv : RefreshEnv) (s : AuthState)
    (t : String) (env : Nat → ServerOutcome) (fuel : Nat)
    (hc : renv.config = .ok "saas") (hx : renv.exchange = .ok (some t))
    (ht : t ≠ "") (hg : optTruthy s.gitHubToken = true)
    (henv : env 0 = .httpErr 401) :
    (refreshTokenRun renv s).state.bitbucketToken = s.bitbucketToken ∧
    (refreshTokenRun renv s).state.bitbucketAuthHeader = s.bitbucketAuthHeader ∧
    (refreshTokenRun renv s).state.gitHubToken = some t ∧
    (refreshTokenRun renv s).state.githubAuthHeader = some ("Bearer " ++ t) ∧
    ((submit "saas" renv env (fuel + 1) req0 ⟨s, 0, 0, []⟩).2).dispatched.map
        (fun r => r.auth) = [s.bitbucketAuthHeader, s.bitbucketAuthHeader] ∧
    ((submit "saas" renv env (fuel + 1) req0 ⟨s, 0, 0, []⟩).2).dispatched.map
        (fun r => r.retryMarker) = [false, true] := by
  have htok : optTruthy (some t) = true := by simp [optTruthy, ht]
  have hcond : ¬("saas" ≠ "saas" ∨ optTruthy s.gitHubToken = false) := by
    simp [hg]
  have hrun : refreshTokenRun renv s =
      ⟨.ok true, setGitHubToken (some t) s, true⟩ := by
    simp only [refreshTokenRun, hc, hx]
    rw [if_neg hcond, if_pos htok]
  have hbbt : (setGitHubToken (some t) s).bitbucketToken = s.bitbucketToken := by
    simp [setGitHubToken, htok]
  have hbbh : (setGitHubToken (some t) s).bitbucketAuthHeader =
      s.bitbucketAuthHeader := by
    simp [setGitHubToken, htok]
  have hdisp : ((submit "saas" renv env (fuel + 1) req0 ⟨s, 0, 0, []⟩).2).dispatched =
      [(⟨false, s.bitbucketAuthHeader⟩ : Request),
        (⟨true, s.bitbucketAuthHeader⟩ : Request)] := by
    have hstep : submit "saas" renv env (fuel + 1) req0 ⟨s, 0, 0, []⟩ =
        handleFailureWith "saas" renv (submit "saas" renv env fuel)
          (.axios { config := some (⟨false, s.bitbucketAuthHeader⟩ : Request), respStatus := some 401 })
          (⟨s, 0, 0, [⟨false, s.bitbucketAuthHeader⟩]⟩ : RunState) := by
      simp only [submit, submitStep, List.length_nil, henv]
      rfl
    rcases hretry : submit "saas" renv env fuel
        (markReq (⟨false, s.bitbucketAuthHeader⟩ : Request))
        (afterRefresh renv (⟨s, 0, 0, [⟨false, s.bitbucketAuthHeader⟩]⟩ : RunState))
      with ⟨res, rs3⟩
    have hres : (refreshTokenRun renv
        ((⟨s, 0, 0, [⟨false, s.bitbucketAuthHeader⟩]⟩ : RunState)).auth).result =
        .ok true := by
      rw [show ((⟨s, 0, 0, [⟨false, s.bitbucketAuthHeader⟩]⟩ : RunState)).auth = s
        from rfl, hrun]
    have h3 := submit_marked "saas" renv env fuel
      (markReq (⟨false, s.bitbucketAuthHeader⟩ : Request))
      (afterRefresh renv (⟨s, 0, 0, [⟨false, s.bitbucketAuthHeader⟩]⟩ : RunState))
      rfl
    rw [hretry] at h3
    dsimp only at h3
    rw [hstep, hfw_refresh_ok rfl hres hretry]
    cases res with
    | resolved b =>
      dsimp only
      rw [h3]
      simp [recordDispatch, afterRefresh, resolveReq, markReq, hrun, hbbh,
        option_orElse_self]
    | rejected re =>
      dsimp only
      rw [h3]
      simp [doLogout, recordDispatch, afterRefresh, resolveReq, markReq, hrun,
        hbbh, option_orElse_self]
  refine ⟨?_, ?_, ?_, ?_, ?_, ?_⟩
  · rw [hrun]
    exact hbbt
  · rw [hrun]
    exact hbbh
  · rw [hrun]
    simp [setGitHubToken, htok]
  · rw [hrun]
    simp [setGitHubToken, htok, setGitHubAuthHeaderSpec]
  · rw [hdisp]
    rfl
  · rw [hdisp]
    rfl

/-- Witness for C10: the sample session, refresh token "ghNew", and a
server answering 401 first. -/
theorem C10_refresh_frame_same_auth_witness :
    renvOk.config = .ok "saas" ∧ renvOk.exchange = .ok (some "ghNew") ∧
    ("ghNew" : String) ≠ "" ∧ optTruthy sampleState.gitHubToken = true ∧
    env401 0 = .httpErr 401 ∧
    (refreshTokenRun renvOk sampleState).state.bitbucketToken =
      sampleState.bitbucketToken ∧
    (refreshTokenRun renvOk sampleState).state.bitbucketAuthHeader =
      sampleState.bitbucketAuthHeader ∧
    (refreshTokenRun renvOk sampleState).state.gitHubToken = some "ghNew" ∧
    ((submit "saas" renvOk env401 (1 + 1) req0 ⟨sampleState, 0, 0, []⟩).2).dispatched.map
        (fun r => r.auth) =
      [sampleState.bitbucketAuthHeader, sampleState.bitbucketAuthHeader] ∧
    ((submit "saas" renvOk env401 (1 + 1) req0 ⟨sampleState, 0, 0, []⟩).2).dispatched.map
        (fun r => r.retryMarker) = [false, true] := by
  have hm := C10_refresh_frame_same_auth renvOk sampleState "ghNew" env401 1
    rfl rfl (by decide) (by decide) rfl
  exact ⟨rfl, rfl, by decide, by decide, rfl,
    hm.1, hm.2.1, hm.2.2.1, hm.2.2.2.2.1, hm.2.2.2.2.2⟩
